import Mathlib

/-!
Verification development for the repository qutip-notebooks, which consists of the
single notebook src/examples/control-pulseoptim-Hadamard.ipynb.  The notebook is a
straight-line script: it imports libraries, assigns problem parameters, makes one
call to the external routine cpo.optimize_pulse_unitary, and then prints and plots
fields of the returned result object.

The shallow embedding below has three layers:

1. exact values: the four operator matrices the notebook builds (entries in the
   field of rationals adjoined with the square root of two, with explicit real and
   imaginary parts), the scalar configuration constants, and the output-file
   extension string built by the format call;
2. the call interface: the positional and keyword argument lists of the single
   optimize_pulse_unitary call, and the result fields the later cells read;
3. the script structure: the notebook transcribed statement by statement as a list
   of classified statements, over which the claims about call counts, ordering and
   post-call activity are stated and decided.

External-library behaviour that the claims depend on (default optimization method,
file-writing convention, the time grid of the result) is modelled from the spec and
from the notebook's own logged output, and marked as such in doc comments.
-/

namespace PulseOptimHadamard

/-! ### Exact scalar arithmetic: rationals adjoined with the square root of two

The entries of the four matrices the notebook constructs are (up to the float
representation used by numpy, idealised here as exact reals) elements of the field
of numbers a + b * sqrt 2 with a b rational.  `Q2 a b` denotes a + b * sqrt 2. -/

structure Q2 where
  a : ℚ
  b : ℚ
deriving DecidableEq, Repr

def Q2.zero : Q2 := ⟨0, 0⟩

def Q2.one : Q2 := ⟨1, 0⟩

def Q2.add (x y : Q2) : Q2 := ⟨x.a + y.a, x.b + y.b⟩

def Q2.neg (x : Q2) : Q2 := ⟨-x.a, -x.b⟩

def Q2.mul (x y : Q2) : Q2 := ⟨x.a * y.a + 2 * x.b * y.b, x.a * y.b + x.b * y.a⟩

/-- The value 1 / sqrt 2, written as (1/2) * sqrt 2. -/
def Q2.invSqrt2 : Q2 := ⟨0, 1/2⟩

/-! ### Complex numbers over Q2

qutip operator entries are complex; in this notebook every entry is real, but the
embedding keeps the imaginary part so that Hermitian and unitary are stated with
the true complex-conjugate transpose. -/

structure CQ2 where
  re : Q2
  im : Q2
deriving DecidableEq, Repr

def CQ2.zero : CQ2 := ⟨Q2.zero, Q2.zero⟩

def CQ2.one : CQ2 := ⟨Q2.one, Q2.zero⟩

def CQ2.add (x y : CQ2) : CQ2 := ⟨x.re.add y.re, x.im.add y.im⟩

def CQ2.mul (x y : CQ2) : CQ2 :=
  ⟨(x.re.mul y.re).add (x.im.mul y.im).neg, (x.re.mul y.im).add (x.im.mul y.re)⟩

def CQ2.conj (x : CQ2) : CQ2 := ⟨x.re, x.im.neg⟩

/-- Embed a rational as a complex constant. -/
def CQ2.ofRat (q : ℚ) : CQ2 := ⟨⟨q, 0⟩, Q2.zero⟩

/-! ### Dense 2x2 complex matrices, the shape of every operator in the notebook -/

structure M2 where
  e00 : CQ2
  e01 : CQ2
  e10 : CQ2
  e11 : CQ2
deriving DecidableEq, Repr

def M2.id2 : M2 := ⟨CQ2.one, CQ2.zero, CQ2.zero, CQ2.one⟩

def M2.mul (x y : M2) : M2 :=
  ⟨(x.e00.mul y.e00).add (x.e01.mul y.e10),
   (x.e00.mul y.e01).add (x.e01.mul y.e11),
   (x.e10.mul y.e00).add (x.e11.mul y.e10),
   (x.e10.mul y.e01).add (x.e11.mul y.e11)⟩

/-- Conjugate transpose of a 2x2 complex matrix. -/
def M2.conjT (x : M2) : M2 := ⟨x.e00.conj, x.e10.conj, x.e01.conj, x.e11.conj⟩

/-- A matrix is Hermitian when it equals its conjugate transpose. -/
def M2.isHermitian (x : M2) : Prop := x.conjT = x

/-- A matrix is unitary when its conjugate transpose is a two-sided inverse. -/
def M2.isUnitary (x : M2) : Prop := x.mul x.conjT = M2.id2 ∧ x.conjT.mul x = M2.id2

instance (x : M2) : Decidable x.isHermitian := by unfold M2.isHermitian; infer_instance

instance (x : M2) : Decidable x.isUnitary := by unfold M2.isUnitary; infer_instance

/-! ### The four operators of the physics cell

Cell 7 of the notebook builds the operators by calling the external library:
H_d = sigmaz(), H_c = [sigmax()], U_0 = identity(2), U_targ = hadamard_transform(1).
The concrete matrices these external calls return are fixed by the library and are
echoed verbatim in the notebook's own logged output (the System configuration block
of the run cell), from which the entry values below are taken. -/

/-- The Pauli z matrix returned by sigmaz(): rows (1, 0) and (0, -1). -/
def sigmaz : M2 := ⟨CQ2.ofRat 1, CQ2.zero, CQ2.zero, CQ2.ofRat (-1)⟩

/-- The Pauli x matrix returned by sigmax(): rows (0, 1) and (1, 0). -/
def sigmax : M2 := ⟨CQ2.zero, CQ2.ofRat 1, CQ2.ofRat 1, CQ2.zero⟩

/-- The 2x2 identity returned by identity(2). -/
def identity2 : M2 := M2.id2

/-- The single-qubit Hadamard gate returned by hadamard_transform(1):
(1 / sqrt 2) times rows (1, 1) and (1, -1). -/
def hadamard1 : M2 :=
  ⟨⟨Q2.invSqrt2, Q2.zero⟩, ⟨Q2.invSqrt2, Q2.zero⟩,
   ⟨Q2.invSqrt2, Q2.zero⟩, ⟨Q2.invSqrt2.neg, Q2.zero⟩⟩

/-- Cell 7: H_d = sigmaz() (the drift Hamiltonian). -/
def H_d : M2 := sigmaz

/-- Cell 7: H_c = [sigmax()] (the list of control Hamiltonians, a single entry). -/
def H_c : List M2 := [sigmax]

/-- Cell 7: U_0 = identity(2) (the start point of the gate evolution). -/
def U_0 : M2 := identity2

/-- Cell 7: U_targ = hadamard_transform(1) (the target of the gate evolution). -/
def U_targ : M2 := hadamard1

/-! ### The scalar configuration constants (cells 4, 10, 13, 16, 18) -/

/-- Cell 4: example_name = Hadamard. -/
def example_name : String := "Hadamard"

/-- Cell 10: n_ts = 10, the number of time slots. -/
def n_ts : Nat := 10

/-- Cell 10: evo_time = 10, the time allowed for the evolution. -/
def evo_time : ℚ := 10

/-- Cell 13: fid_err_targ = 1e-10, the fidelity error target. -/
def fid_err_targ : ℚ := 1 / 10 ^ 10

/-- Cell 13: max_iter = 200, the iteration limit. -/
def max_iter : Nat := 200

/-- Cell 13: max_wall_time = 120, the elapsed-seconds limit. -/
def max_wall_time : Nat := 120

/-- Cell 13: min_grad = 1e-20, the gradient threshold. -/
def min_grad : ℚ := 1 / 10 ^ 20

/-- Cell 16: p_type = RND, the initial pulse type selector. -/
def p_type : String := "RND"

/-- The format call of cell 18: the template interpolates the example name, the
timeslot count and the pulse type into name_n_tsN_ptypeP.txt. -/
def formatFileExt (name : String) (nts : Nat) (ptype : String) : String :=
  name ++ "_n_ts" ++ toString nts ++ "_ptype" ++ ptype ++ ".txt"

/-- Cell 18: f_ext, the output-file extension handed to the optimizer. -/
def f_ext : String := formatFileExt example_name n_ts p_type

/-! ### The single optimization call (cell 21)

result = cpo.optimize_pulse_unitary(H_d, H_c, U_0, U_targ, n_ts, evo_time,
    fid_err_targ=fid_err_targ, min_grad=min_grad, max_iter=max_iter,
    max_wall_time=max_wall_time, out_file_ext=f_ext, init_pulse_type=p_type,
    log_level=log_level, gen_stats=True)

The two lists below transcribe, in source order, the names bound by the six
positional arguments and the names of the keyword arguments of that call. -/

def optimizePositionalArgs : List String :=
  ["H_d", "H_c", "U_0", "U_targ", "n_ts", "evo_time"]

def optimizeKeywordArgs : List String :=
  ["fid_err_targ", "min_grad", "max_iter", "max_wall_time",
   "out_file_ext", "init_pulse_type", "log_level", "gen_stats"]

/-! ### Result fields consumed for display (cells 24 and 27)

Cell 24 runs result.stats.report() and prints evo_full_final, fid_err,
grad_norm_final, termination_reason, num_iter and wall_time; cell 27 plots
using result.time, result.initial_amps and result.final_amps.  The list is in
order of first use. -/

def consumedResultFields : List String :=
  ["stats", "evo_full_final", "fid_err", "grad_norm_final",
   "termination_reason", "num_iter", "wall_time",
   "time", "initial_amps", "final_amps"]

/-! ### The notebook as a statement list

Every executable line of the notebook, in order, classified by kind.  The kinds
branchK and fileWriteK never occur in the transcription: the notebook contains no
conditional statement and no statement of its own that writes a file; they are in
the type so that their absence is a contentful, decidable property. -/

inductive SKind where
  | importK       : SKind
  | assignParam   : SKind
  | optCall       : SKind
  | printK        : SKind
  | plotK         : SKind
  | versionTableK : SKind
  | branchK       : SKind
  | fileWriteK    : SKind
deriving DecidableEq, Repr

structure NStmt where
  kind : SKind
  label : String
  reads : List String
deriving DecidableEq, Repr

/-- The notebook transcribed statement by statement.  label quotes the source
line (abbreviated); reads lists the result fields the statement reads. -/
def notebook : List NStmt :=
  [ -- cell 3
    ⟨SKind.importK, "import numpy as np", []⟩,
    ⟨SKind.importK, "import matplotlib.pyplot as plt", []⟩,
    ⟨SKind.importK, "import datetime", []⟩,
    -- cell 4
    ⟨SKind.importK, "from qutip import Qobj identity sigmax sigmaz", []⟩,
    ⟨SKind.importK, "from qutip.qip import hadamard_transform", []⟩,
    ⟨SKind.importK, "import qutip.logging_utils as logging", []⟩,
    ⟨SKind.assignParam, "logger = logging.get_logger()", []⟩,
    ⟨SKind.assignParam, "log_level = logging.INFO", []⟩,
    ⟨SKind.importK, "import qutip.control.pulseoptim as cpo", []⟩,
    ⟨SKind.assignParam, "example_name = Hadamard", []⟩,
    -- cell 7
    ⟨SKind.assignParam, "H_d = sigmaz()", []⟩,
    ⟨SKind.assignParam, "H_c = [sigmax()]", []⟩,
    ⟨SKind.assignParam, "U_0 = identity(2)", []⟩,
    ⟨SKind.assignParam, "U_targ = hadamard_transform(1)", []⟩,
    -- cell 10
    ⟨SKind.assignParam, "n_ts = 10", []⟩,
    ⟨SKind.assignParam, "evo_time = 10", []⟩,
    -- cell 13
    ⟨SKind.assignParam, "fid_err_targ = 1e-10", []⟩,
    ⟨SKind.assignParam, "max_iter = 200", []⟩,
    ⟨SKind.assignParam, "max_wall_time = 120", []⟩,
    ⟨SKind.assignParam, "min_grad = 1e-20", []⟩,
    -- cell 16
    ⟨SKind.assignParam, "p_type = RND", []⟩,
    -- cell 18
    ⟨SKind.assignParam, "f_ext = format(example_name, n_ts, p_type)", []⟩,
    -- cell 21
    ⟨SKind.optCall, "result = cpo.optimize_pulse_unitary(...)", []⟩,
    -- cell 24
    ⟨SKind.printK, "result.stats.report()", ["stats"]⟩,
    ⟨SKind.printK, "print Final evolution", ["evo_full_final"]⟩,
    ⟨SKind.printK, "print Summary header", []⟩,
    ⟨SKind.printK, "print Final fidelity error", ["fid_err"]⟩,
    ⟨SKind.printK, "print Final gradient normal", ["grad_norm_final"]⟩,
    ⟨SKind.printK, "print Terminated due to", ["termination_reason"]⟩,
    ⟨SKind.printK, "print Number of iterations", ["num_iter"]⟩,
    ⟨SKind.printK, "print Completed in", ["wall_time"]⟩,
    -- cell 27
    ⟨SKind.plotK, "fig1 = plt.figure()", []⟩,
    ⟨SKind.plotK, "ax1 = fig1.add_subplot(2, 1, 1)", []⟩,
    ⟨SKind.plotK, "ax1.set_title Initial control amps", []⟩,
    ⟨SKind.plotK, "ax1.set_ylabel Control amplitude", []⟩,
    ⟨SKind.plotK, "ax1.step(result.time, hstack initial_amps)", ["time", "initial_amps"]⟩,
    ⟨SKind.plotK, "ax2 = fig1.add_subplot(2, 1, 2)", []⟩,
    ⟨SKind.plotK, "ax2.set_title Optimised Control Sequences", []⟩,
    ⟨SKind.plotK, "ax2.set_xlabel Time", []⟩,
    ⟨SKind.plotK, "ax2.set_ylabel Control amplitude", []⟩,
    ⟨SKind.plotK, "ax2.step(result.time, hstack final_amps)", ["time", "final_amps"]⟩,
    ⟨SKind.plotK, "plt.tight_layout()", []⟩,
    ⟨SKind.plotK, "plt.show()", []⟩,
    -- cell 29
    ⟨SKind.importK, "from qutip.ipynbtools import version_table", []⟩,
    ⟨SKind.versionTableK, "version_table()", []⟩ ]

/-- Number of statements that call the external optimizer. -/
def optCallCount : Nat :=
  (notebook.filter (fun s => s.kind = SKind.optCall)).length

/-- Index of the first statement that calls the external optimizer. -/
def optCallIdx : Nat := notebook.findIdx (fun s => s.kind = SKind.optCall)

/-! ### External-library behaviour modelled from the spec

The body of optimize_pulse_unitary lives in the qutip library, outside this
repository.  The three definitions below model the slivers of its behaviour
that the claims reference, from the spec and from the notebook's logged output. -/

/-- Modelled from the spec: the file-writing side effect of the external routine
optimize_pulse_unitary, whose body is not in this repository.  Per the spec, the
optional side effects are writing the initial and final amplitude arrays to text
files named by the caller-supplied suffix; the name convention (prefix
ctrl_amps_initial_ and ctrl_amps_final_ before the suffix) is read off the
notebook's logged output.  A suffix of none suppresses the files. -/
def outputFiles (ext : Option String) : List String :=
  match ext with
  | none => []
  | some e => ["ctrl_amps_initial_" ++ e, "ctrl_amps_final_" ++ e]

/-- Modelled from the spec: the optimization method the external routine uses,
which is not in this repository.  When the caller passes none of the
method-selecting keywords, the library default applies, which the spec and the
notebook (markdown and logged output) identify as L-BFGS-B, logged as
fmin_l_bfgs_b.  With an override keyword present the method is caller-dependent
and left unmodelled (none). -/
def methodUsed (kw : List String) : Option String :=
  if "optim_method" ∈ kw ∨ "alg" ∈ kw ∨ "method" ∈ kw then none
  else some "fmin_l_bfgs_b"

/-- Modelled from the spec: the time grid result.time returned by the external
routine, which is not in this repository: the n_ts + 1 boundaries of the n_ts
uniform timeslots covering the interval from 0 to evo_time. -/
def result_time : List ℚ :=
  (List.range (n_ts + 1)).map (fun k => evo_time * k / n_ts)

/-! ### The plotting transform of cell 27

Both step plots pass np.hstack((amps[:, 0], amps[-1, 0])): column 0 of the
amplitude array, followed by the scalar at row -1, column 0.  Amplitude arrays
are embedded as lists of rows. -/

/-- The column amps[:, 0]: the first entry of each row. -/
def column0 (amps : List (List ℚ)) : List ℚ := amps.map (fun r => r.headD 0)

/-- The scalar amps[-1, 0]: the first entry of the last row. -/
def lastRowFirst (amps : List (List ℚ)) : ℚ := (amps.getLastD []).headD 0

/-- np.hstack of a one-dimensional array and a scalar: append the scalar. -/
def hstack1 (xs : List ℚ) (y : ℚ) : List ℚ := xs ++ [y]

/-- The sequence handed to ax.step in cell 27. -/
def plottedSeq (amps : List (List ℚ)) : List ℚ :=
  hstack1 (column0 amps) (lastRowFirst amps)

/-! ### Claim C1 -/

/-- Claim C1 as stated: one optimizer call, every parameter assignment strictly
before it, and every statement after it a print or a plot. -/
def C1_asStated : Prop :=
  optCallCount = 1 ∧
  (∀ p ∈ notebook.enum, p.2.kind = SKind.assignParam → p.1 < optCallIdx) ∧
  (∀ p ∈ notebook.enum, optCallIdx < p.1 →
    p.2.kind = SKind.printK ∨ p.2.kind = SKind.plotK)

/-- Claim C1 amended: as stated, except that after the call the notebook may
also import and display the package version table; still no further
optimization call and no further parameter assignment. -/
def C1_amendedProp : Prop :=
  optCallCount = 1 ∧
  (∀ p ∈ notebook.enum, p.2.kind = SKind.assignParam → p.1 < optCallIdx) ∧
  (∀ p ∈ notebook.enum, optCallIdx < p.1 →
    p.2.kind = SKind.printK ∨ p.2.kind = SKind.plotK ∨
    p.2.kind = SKind.importK ∨ p.2.kind = SKind.versionTableK)

/-- Claim C1, as stated, is false on the notebook: the final cell imports and
displays a package version table after the optimization call, and those two
statements are neither prints nor plots of result fields. -/
theorem C1_counterexample : ¬ C1_asStated := by
  unfold C1_asStated
  decide

/-- Claim C1 (amended): the optimizer is called exactly once, every parameter
assignment precedes the call, and after the call the notebook only prints,
plots, and imports/displays the version table; in particular it performs no
further optimization and no parameter mutation. -/
theorem C1_theorem : C1_amendedProp := by
  unfold C1_amendedProp
  decide

/-! ### Claim C2 -/

/-- The argument names the claim allows as keyword options of the call. -/
def claimedKeywordArgs : List String :=
  ["fid_err_targ", "max_iter", "max_wall_time", "min_grad",
   "init_pulse_type", "out_file_ext"]

/-- Claim C2 as stated: the positional arguments are exactly the six operator
and time parameters, and the keyword arguments are exactly the six claimed
configuration options, and nothing else. -/
def C2_asStated : Prop :=
  optimizePositionalArgs = ["H_d", "H_c", "U_0", "U_targ", "n_ts", "evo_time"] ∧
  (∀ k ∈ optimizeKeywordArgs, k ∈ claimedKeywordArgs) ∧
  (∀ k ∈ claimedKeywordArgs, k ∈ optimizeKeywordArgs)

/-- Claim C2 amended: the call additionally passes the logging-verbosity option
log_level and the statistics-collection option gen_stats, and nothing further. -/
def C2_amendedProp : Prop :=
  optimizePositionalArgs = ["H_d", "H_c", "U_0", "U_targ", "n_ts", "evo_time"] ∧
  (∀ k ∈ optimizeKeywordArgs,
    k ∈ claimedKeywordArgs ∨ k = "log_level" ∨ k = "gen_stats") ∧
  (∀ k ∈ claimedKeywordArgs, k ∈ optimizeKeywordArgs) ∧
  "log_level" ∈ optimizeKeywordArgs ∧ "gen_stats" ∈ optimizeKeywordArgs

/-- Claim C2, as stated, is false: the call also passes the keyword arguments
log_level and gen_stats, which are outside the claimed exact argument set. -/
theorem C2_counterexample : ¬ C2_asStated := by
  unfold C2_asStated
  decide

/-- Claim C2 (amended): the arguments of the call are exactly the six
positional parameters and the six claimed configuration options plus the
log_level and gen_stats options. -/
theorem C2_theorem : C2_amendedProp := by
  unfold C2_amendedProp
  decide

/-! ### Claim C3 -/

/-- The result-field names matching the six display fields of the data model:
optimized amplitudes (final_amps), fidelity error (fid_err), gradient norm
(grad_norm_final), termination reason, iteration count (num_iter), and the
wall-clock timing breakdown, which is read generously as covering both the
wall_time scalar and the stats timing record. -/
def dataModelDisplayFields : List String :=
  ["final_amps", "fid_err", "grad_norm_final", "termination_reason",
   "num_iter", "wall_time", "stats"]

/-- Claim C3 as stated: every consumed result field is among the data-model
display fields. -/
def C3_asStated : Prop :=
  ∀ f ∈ consumedResultFields, f ∈ dataModelDisplayFields

/-- Claim C3 amended: the notebook additionally consumes the final evolution
operator (evo_full_final), the time grid (time), and the initial amplitude
array (initial_amps). -/
def C3_amendedProp : Prop :=
  (∀ f ∈ consumedResultFields,
    f ∈ dataModelDisplayFields ∨
    f = "evo_full_final" ∨ f = "time" ∨ f = "initial_amps") ∧
  "evo_full_final" ∈ consumedResultFields ∧
  "time" ∈ consumedResultFields ∧
  "initial_amps" ∈ consumedResultFields

/-- Claim C3, as stated, is false: the report cell prints
result.evo_full_final, which is not among the six data-model display
fields (the plot cell likewise reads result.time and result.initial_amps). -/
theorem C3_counterexample : ¬ C3_asStated := by
  unfold C3_asStated
  decide

/-- Claim C3 (amended): the consumed result fields are the data-model display
fields together with evo_full_final, time, and initial_amps. -/
theorem C3_theorem : C3_amendedProp := by
  unfold C3_amendedProp
  decide

/-! ### Claim C4 -/

/-- Matrix addition, used to characterise the Hadamard gate. -/
def M2.addM (x y : M2) : M2 :=
  ⟨x.e00.add y.e00, x.e01.add y.e01, x.e10.add y.e10, x.e11.add y.e11⟩

/-- Scalar multiple of a matrix. -/
def M2.smulC (c : CQ2) (x : M2) : M2 :=
  ⟨c.mul x.e00, c.mul x.e01, c.mul x.e10, c.mul x.e11⟩

/-- Claim C4: all four operators are 2x2 (they inhabit M2); entrywise, the
drift H_d is the Pauli z matrix, the single control is the Pauli x matrix, the
initial operator is the identity, and the target is the Hadamard gate, equal to
(1 / sqrt 2) times the sum of Pauli x and Pauli z. -/
theorem C4_theorem :
    H_d = ⟨CQ2.ofRat 1, CQ2.zero, CQ2.zero, CQ2.ofRat (-1)⟩ ∧
    H_c = [⟨CQ2.zero, CQ2.ofRat 1, CQ2.ofRat 1, CQ2.zero⟩] ∧
    U_0 = ⟨CQ2.one, CQ2.zero, CQ2.zero, CQ2.one⟩ ∧
    U_targ = ⟨⟨Q2.invSqrt2, Q2.zero⟩, ⟨Q2.invSqrt2, Q2.zero⟩,
              ⟨Q2.invSqrt2, Q2.zero⟩, ⟨Q2.invSqrt2.neg, Q2.zero⟩⟩ ∧
    U_targ = M2.smulC ⟨Q2.invSqrt2, Q2.zero⟩ (M2.addM sigmax sigmaz) := by
  refine ⟨rfl, rfl, rfl, rfl, ?_⟩
  simp only [U_targ, hadamard1, M2.smulC, M2.addM, sigmax, sigmaz,
    CQ2.mul, CQ2.add, CQ2.zero, CQ2.one, CQ2.ofRat,
    Q2.mul, Q2.add, Q2.neg, Q2.zero, Q2.one, Q2.invSqrt2,
    M2.mk.injEq, CQ2.mk.injEq, Q2.mk.injEq]
  norm_num

/-! ### Claim C5 -/

/-- Claim C5: each of the four termination limits is passed exactly once as a
keyword argument; the notebook has no conditional statement anywhere; and after
the call the termination reason is read only by a print statement. -/
def C5_prop : Prop :=
  optimizeKeywordArgs.count "fid_err_targ" = 1 ∧
  optimizeKeywordArgs.count "max_iter" = 1 ∧
  optimizeKeywordArgs.count "max_wall_time" = 1 ∧
  optimizeKeywordArgs.count "min_grad" = 1 ∧
  (∀ s ∈ notebook, s.kind ≠ SKind.branchK) ∧
  (∀ s ∈ notebook, "termination_reason" ∈ s.reads → s.kind = SKind.printK)

/-- Claim C5: the notebook passes one limit per termination condition, contains
no branch, and only prints the returned termination reason. -/
theorem C5_theorem : C5_prop := by
  unfold C5_prop
  decide

/-! ### Claim C6 -/

/-- Claim C6: with the suffix set to none the modelled external routine writes
no files; with the suffix the notebook passes, it writes exactly the initial
and final amplitude files named from that suffix; and no statement of the
notebook itself writes a file. -/
def C6_prop : Prop :=
  outputFiles none = [] ∧
  outputFiles (some f_ext) =
    ["ctrl_amps_initial_Hadamard_n_ts10_ptypeRND.txt",
     "ctrl_amps_final_Hadamard_n_ts10_ptypeRND.txt"] ∧
  "out_file_ext" ∈ optimizeKeywordArgs ∧
  (∀ s ∈ notebook, s.kind ≠ SKind.fileWriteK)

/-- Claim C6: the only optional file-writing side effects are the two amplitude
files named by the caller-supplied suffix, suppressed when the suffix is none,
and no notebook statement writes files itself. -/
theorem C6_theorem : C6_prop := by
  unfold C6_prop
  decide

/-! ### Claim C7 -/

/-- Claim C7: the call passes none of the method-selecting keywords, so the
modelled library default applies and the method used is L-BFGS-B (logged by
scipy name fmin_l_bfgs_b). -/
def C7_prop : Prop :=
  "optim_method" ∉ optimizeKeywordArgs ∧
  "alg" ∉ optimizeKeywordArgs ∧
  "method" ∉ optimizeKeywordArgs ∧
  methodUsed optimizeKeywordArgs = some "fmin_l_bfgs_b"

/-- Claim C7: no algorithm or method override is passed, and the method that
runs is the library default L-BFGS-B. -/
theorem C7_theorem : C7_prop := by
  unfold C7_prop
  decide

/-! ### Claim C8 -/

/-- Claim C8: the drift (Pauli z) and the single control (Pauli x) are
Hermitian, the initial operator (identity) and the target (Hadamard) are
unitary, and all four share the 2x2 shape by inhabiting M2; the control list
is exactly the singleton of the Pauli x matrix. -/
theorem C8_theorem :
    H_d.isHermitian ∧ sigmax.isHermitian ∧ H_c = [sigmax] ∧
    U_0.isUnitary ∧ U_targ.isUnitary := by
  refine ⟨?_, ?_, rfl, ?_, ?_⟩ <;>
  · simp only [M2.isHermitian, M2.isUnitary, M2.conjT, M2.mul, M2.id2,
      H_d, U_0, U_targ, sigmaz, sigmax, identity2, hadamard1,
      CQ2.conj, CQ2.mul, CQ2.add, CQ2.zero, CQ2.one, CQ2.ofRat,
      Q2.mul, Q2.add, Q2.neg, Q2.zero, Q2.one, Q2.invSqrt2,
      M2.mk.injEq, CQ2.mk.injEq, Q2.mk.injEq]
    norm_num

/-! ### Claim C9 -/

/-- Claim C9: the configuration constants have exactly the stated values, and
the output-file suffix formats deterministically to
Hadamard_n_ts10_ptypeRND.txt. -/
theorem C9_theorem :
    n_ts = 10 ∧ evo_time = 10 ∧ fid_err_targ = 1 / 10 ^ 10 ∧
    max_iter = 200 ∧ max_wall_time = 120 ∧ min_grad = 1 / 10 ^ 20 ∧
    p_type = "RND" ∧
    f_ext = "Hadamard_n_ts10_ptypeRND.txt" :=
  ⟨rfl, rfl, rfl, rfl, rfl, rfl, rfl, by decide⟩

/-! ### Claim C10 -/

/-- Helper: taking column 0 commutes with taking the last element. -/
theorem column0_getLast (amps : List (List ℚ)) :
    (column0 amps).getLast? = amps.getLast?.map (fun r => r.headD 0) := by
  induction amps with
  | nil => rfl
  | cons r rest ih =>
    cases rest with
    | nil => rfl
    | cons s t => simpa [column0] using ih

/-- Claim C10: for any amplitude array with n_ts rows, the sequence handed to
ax.step is the first-control column extended by one copy of its own last
element, and its length is n_ts + 1, the length of the result time grid. -/
theorem C10_theorem (amps : List (List ℚ)) (h : amps.length = n_ts) :
    plottedSeq amps = column0 amps ++ [lastRowFirst amps] ∧
    (column0 amps).getLast? = some (lastRowFirst amps) ∧
    (plottedSeq amps).length = n_ts + 1 ∧
    result_time.length = n_ts + 1 := by
  have hne : amps ≠ [] := by
    intro hnil
    rw [hnil] at h
    simp [n_ts] at h
  refine ⟨rfl, ?_, ?_, ?_⟩
  · rw [column0_getLast]
    cases hl : amps.getLast? with
    | none =>
      exact absurd (List.getLast?_eq_none_iff.mp hl) hne
    | some r =>
      simp [lastRowFirst, List.getLastD_eq_getLast?, hl]
  · simp [plottedSeq, hstack1, column0, h]
  · rfl

/-- Witness for claim C10 at a concrete array of 10 single-entry rows. -/
theorem C10_witness :
    plottedSeq (List.replicate 10 [(1 : ℚ)]) =
      column0 (List.replicate 10 [(1 : ℚ)]) ++
        [lastRowFirst (List.replicate 10 [(1 : ℚ)])] ∧
    (column0 (List.replicate 10 [(1 : ℚ)])).getLast? =
      some (lastRowFirst (List.replicate 10 [(1 : ℚ)])) ∧
    (plottedSeq (List.replicate 10 [(1 : ℚ)])).length = n_ts + 1 ∧
    result_time.length = n_ts + 1 :=
  C10_theorem (List.replicate 10 [(1 : ℚ)]) (by rfl)

end PulseOptimHadamard
